import Mathlib

/-!
# Schema-gated admission of resource data (`main.go`)

A shallow embedding of the two HTTP handlers `createResourceType` and
`validateAndStoreResourceData`, of `validateJSONAgainstSchema` and of
`checkAdditionalProperties`, followed by the properties proved about them.

Conventions of the embedding.

* A byte string handed to `encoding/json` is represented by what the scanner
  of the decoder finds in it: either an error text (the scanner rejects the
  bytes: they are not one JSON value, or they nest deeper than its limit of
  10000) or the JSON value they spell. Object members are kept in document
  order and a number keeps its literal, so what the decoder then does with
  the value (a number that does not fit `float64`, a repeated key) is part of
  the definitions below.
* The PostgreSQL database is an explicit state `DB` holding the rows of the two
  tables created by `initDB` and the two `SERIAL` sequences. Every statement
  takes an extra argument `fault`: when it is `some text` the statement fails
  with that error text (connection loss, a rejection by the server that the
  table constraints below do not cover, ...). The `created_at` column is left
  out. A statement that fails leaves `DB` as it was.
* The `qri-io/jsonschema` library is a parameter (`SchemaLibrary`).
* `log.Printf` output is not part of the embedding: it never reaches the caller.
-/

set_option maxRecDepth 4000

namespace DynamicResources

/-! ## JSON documents -/

/-- A JSON value as `encoding/json` sees it. A number keeps its literal. -/
inductive JSONValue where
  | null
  | bool (b : Bool)
  | number (literal : String)
  | string (s : String)
  | array (items : List JSONValue)
  | object (members : List (String × JSONValue))

/-- The type `json.RawMessage`: a byte slice, described by how the scanner of
`encoding/json` reads it. `nil` is the zero value (no bytes), `malformed err`
stands for bytes that the scanner rejects (`err` is its error text): bytes that
are not one JSON value, or that nest deeper than 10000; `valid v` stands for
bytes that the scanner accepts and that spell the JSON value `v`. -/
inductive RawMessage where
  | nil
  | malformed (err : String)
  | valid (v : JSONValue)

/-- The word `encoding/json` uses for a value in an `UnmarshalTypeError`. -/
def JSONValue.kind : JSONValue → String
  | .null => "null"
  | .bool _ => "bool"
  | .number _ => "number"
  | .string _ => "string"
  | .array _ => "array"
  | .object _ => "object"

/-- Indexing of the Go map that the decoder builds from the members of an
object: the members are stored one after the other, so a later member with the
same key replaces an earlier one. `none` is the `ok = false` of `m[key]`. -/
def mapIndex : List (String × JSONValue) → String → Option JSONValue
  | [], _ => none
  | (k, v) :: rest, key =>
    match mapIndex rest key with
    | some w => some w
    | none => if k = key then some v else none

/-- The digits at the head of a list of characters, and what follows them. -/
def leadingDigits : List Char → List Char × List Char
  | [] => ([], [])
  | c :: cs =>
    if c.isDigit then (c :: (leadingDigits cs).1, (leadingDigits cs).2) else ([], c :: cs)

/-- The natural number written by a list of decimal digits. -/
def digitsValue (ds : List Char) : Nat :=
  ds.foldl (fun acc c => 10 * acc + (c.toNat - 48)) 0

/-- The absolute value of a JSON number literal
`-? digits (. digits)? ((e|E) (+|-)? digits)?`, as a pair `(m, e)` that stands
for `m * 10 ^ e`. -/
def decimalOfLiteral (literal : String) : Nat × Int :=
  let unsigned := match literal.data with
    | '-' :: rest => rest
    | cs => cs
  let whole := leadingDigits unsigned
  let fraction := match whole.2 with
    | '.' :: rest => leadingDigits rest
    | rest => ([], rest)
  let exponent : Int := match fraction.2 with
    | 'e' :: '-' :: ds => -(digitsValue (leadingDigits ds).1 : Int)
    | 'E' :: '-' :: ds => -(digitsValue (leadingDigits ds).1 : Int)
    | 'e' :: '+' :: ds => (digitsValue (leadingDigits ds).1 : Int)
    | 'E' :: '+' :: ds => (digitsValue (leadingDigits ds).1 : Int)
    | 'e' :: ds => (digitsValue (leadingDigits ds).1 : Int)
    | 'E' :: ds => (digitsValue (leadingDigits ds).1 : Int)
    | _ => 0
  (digitsValue (whole.1 ++ fraction.1), exponent - (fraction.1.length : Int))

/-- The power `10 ^ k`. -/
def tenPow : Nat → Nat
  | 0 => 1
  | k + 1 => 10 * tenPow k

/-- The number `2 ^ 1024 - 2 ^ 970`, half way between the largest `float64` and
`2 ^ 1024`: the least absolute value that rounds out of the range of
`float64`. -/
def float64Limit : Nat :=
  179769313486231580793728971405303415079934132710037826936173778980444968292764750946649017977587207096330286416692887910946555547851940402630657488671505820681908902000708383676273854845817711531764475730270069855571366959622842914819860834936475292719074168444365510704342711559699508093042880177904174497792

/-- Whether `strconv.ParseFloat(literal, 64)` returns a range error: the
value, rounded to the nearest `float64`, is infinite. A literal too small for
`float64` rounds to zero without an error. -/
def overflowsFloat64 (literal : String) : Bool :=
  match decimalOfLiteral literal with
  | (m, .ofNat k) => decide (float64Limit ≤ m * tenPow k)
  | (m, .negSucc k) => decide (float64Limit * tenPow (k + 1) ≤ m)

mutual
/-- The first number literal of a value, in document order and at any depth,
that does not fit `float64`. When the decoder stores a value in an
`interface{}` it converts every number to `float64`; a number that overflows
is recorded as an `UnmarshalTypeError`, which `json.Unmarshal` returns once the
whole value is read. -/
def JSONValue.firstOverflow : JSONValue → Option String
  | .number literal => if overflowsFloat64 literal then some literal else none
  | .array items => firstOverflowItems items
  | .object members => firstOverflowMembers members
  | _ => none
/-- The first overflowing number among the items of an array. -/
def firstOverflowItems : List JSONValue → Option String
  | [] => none
  | v :: rest =>
    match v.firstOverflow with
    | some literal => some literal
    | none => firstOverflowItems rest
/-- The first overflowing number among the members of an object, a member
that a later one with the same key replaces included. -/
def firstOverflowMembers : List (String × JSONValue) → Option String
  | [] => none
  | (_, v) :: rest =>
    match v.firstOverflow with
    | some literal => some literal
    | none => firstOverflowMembers rest
end

/-- The call `json.Unmarshal(schema, &schemaMap)` with
`schemaMap : map[string]interface{}`. The result is the list of members that
make up the map (read it with `mapIndex`). JSON `null` leaves the map `nil`
without an error; any other non-object value is an `UnmarshalTypeError`, and so
is an object that holds, at any depth, a number that does not fit `float64`. -/
def unmarshalMap : RawMessage → Except String (List (String × JSONValue))
  | .nil => .error "unexpected end of JSON input"
  | .malformed err => .error err
  | .valid .null => .ok []
  | .valid (.object members) =>
    match firstOverflowMembers members with
    | some literal =>
      .error ("json: cannot unmarshal number " ++ literal ++ " into Go value of type float64")
    | none => .ok members
  | .valid v =>
    .error ("json: cannot unmarshal " ++ v.kind ++
      " into Go value of type map[string]interface \x7b\x7d")

/-- The function `checkAdditionalProperties` of `main.go` (lines 179-193). -/
def checkAdditionalProperties (schema : RawMessage) : Bool :=
  match unmarshalMap schema with
  | .error _ => false
  | .ok schemaMap =>
    match mapIndex schemaMap "additionalProperties" with
    | some ap =>
      match ap with
      | .bool apBool => if !apBool then true else false
      | _ => false
    | none => false

/-! ## The JSON-Schema library -/

/-- One entry of the list returned by `ValidateBytes` (`jsonschema.KeyError`). -/
structure KeyError where
  PropertyPath : String
  Message : String

/-- The part of `github.com/qri-io/jsonschema` that `main.go` calls.
`UnmarshalJSON` is the method `(*Schema).UnmarshalJSON`, which `json.Unmarshal`
calls on bytes it has found to be valid JSON; `ValidateBytes` returns the pair
`(errs, err)`. -/
structure SchemaLibrary where
  Schema : Type
  UnmarshalJSON : JSONValue → Except String Schema
  ValidateBytes : Schema → RawMessage → List KeyError × Option String

/-- The call `json.Unmarshal(schema, rs)` with `rs : *jsonschema.Schema`: the
bytes are checked to be valid JSON, then handed to the library. -/
def unmarshalSchema (lib : SchemaLibrary) : RawMessage → Except String lib.Schema
  | .nil => .error "unexpected end of JSON input"
  | .malformed err => .error err
  | .valid v => lib.UnmarshalJSON v

/-- The function `validateJSONAgainstSchema` of `main.go` (lines 145-177). -/
def validateJSONAgainstSchema (lib : SchemaLibrary) (schema data : RawMessage) : Bool :=
  match unmarshalSchema lib schema with
  | .error _ => false
  | .ok rs =>
    if !checkAdditionalProperties schema then false
    else
      match lib.ValidateBytes rs data with
      | (_, some _) => false
      | (errs, none) => if errs.length > 0 then false else true

/-! ## Request decoding and struct validation -/

/-- The struct `ResourceType` of `main.go` (lines 18-22); also a row of the
table `resource_types (id, name, schema)`. -/
structure ResourceType where
  ID : Int
  Name : String
  Schema : RawMessage

/-- The struct `ResourceData` of `main.go` (lines 24-28); also a row of the
table `resource_data (id, resource_type_id, data)`. -/
structure ResourceData where
  ID : Int
  ResourceTypeID : Int
  Data : RawMessage

/-- What `json.NewDecoder(r.Body)` finds in a request body: `malformed err` when
the body does not begin with a JSON value that the scanner accepts (`err` is
the decoder's error text), else the first JSON value of the body. `Decode`
stops reading at the end of that value. -/
inductive RequestBody where
  | malformed (err : String)
  | value (v : JSONValue)

/-- The call `Decode(&incomingData)` with `incomingData : json.RawMessage`. -/
def decodeRawMessage : RequestBody → Except String RawMessage
  | .malformed err => .error err
  | .value v => .ok (.valid v)

/-- Simple case folding on the letters that occur in the field names. -/
def foldRune (c : Char) : Char :=
  if c = 'ſ' then 's' else c.toLower

/-- How `encoding/json` matches an object key with a struct field name: the
match ignores case. -/
def equalFold (key field : String) : Bool :=
  key.data.map foldRune == field.data.map foldRune

/-- The text of an `UnmarshalTypeError` on a field of `ResourceType`. Only for
an integer field does the decoder add the literal of a number to the error. -/
def fieldTypeError (v : JSONValue) (field goType : String) : String :=
  let what := match v with
    | .number literal => if goType = "int" then "number " ++ literal else "number"
    | w => w.kind
  "json: cannot unmarshal " ++ what ++ " into Go struct field ResourceType." ++ field ++
    " of type " ++ goType

/-- Decoding of one object member into the struct: the new struct, or the type
error the decoder records for this member. Unknown keys are skipped, JSON
`null` leaves an `int` or `string` field as it is, and `schema` receives the
raw bytes of any value, `null` included. -/
def decodeMember (rt : ResourceType) (key : String) (v : JSONValue) :
    ResourceType × Option String :=
  if equalFold key "id" then
    match v with
    | .null => (rt, none)
    | .number literal =>
      match literal.toInt? with
      | some n =>
        if -9223372036854775808 ≤ n ∧ n ≤ 9223372036854775807 then
          ({ rt with ID := n }, none)
        else (rt, some (fieldTypeError v "id" "int"))
      | none => (rt, some (fieldTypeError v "id" "int"))
    | _ => (rt, some (fieldTypeError v "id" "int"))
  else if equalFold key "name" then
    match v with
    | .null => (rt, none)
    | .string s => ({ rt with Name := s }, none)
    | _ => (rt, some (fieldTypeError v "name" "string"))
  else if equalFold key "schema" then
    ({ rt with Schema := .valid v }, none)
  else (rt, none)

/-- Decoding of the members of an object, in document order. The decoder
reports the first type error it meets; what it does to the struct after that
error is not kept, since both callers drop the struct on an error. -/
def decodeMembers : ResourceType → List (String × JSONValue) → ResourceType × Option String
  | rt, [] => (rt, none)
  | rt, (key, v) :: rest =>
    match decodeMember rt key v with
    | (rt1, some err) => (rt1, some err)
    | (rt1, none) => decodeMembers rt1 rest

/-- The call `json.NewDecoder(r.Body).Decode(&resourceType)` on the zero value
of `ResourceType`. -/
def decodeResourceType : RequestBody → Except String ResourceType
  | .malformed err => .error err
  | .value .null => .ok ⟨0, "", .nil⟩
  | .value (.object members) =>
    match decodeMembers ⟨0, "", .nil⟩ members with
    | (_, some err) => .error err
    | (rt, none) => .ok rt
  | .value v =>
    .error ("json: cannot unmarshal " ++ v.kind ++ " into Go value of type main.ResourceType")

/-- The text the validator reports for a field that fails `required`. -/
def requiredError (field : String) : String :=
  "Key: 'ResourceType." ++ field ++ "' Error:Field validation for '" ++ field ++
    "' failed on the 'required' tag"

/-- The call `validate.Struct(resourceType)` for the two `validate:"required"`
tags: `Name` must not be the empty string and `Schema` must not be a nil
slice. `none` is a nil error. -/
def validateStruct (resourceType : ResourceType) : Option String :=
  let nameErrs := if resourceType.Name = "" then [requiredError "Name"] else []
  let schemaErrs :=
    match resourceType.Schema with
    | .nil => [requiredError "Schema"]
    | _ => []
  match nameErrs ++ schemaErrs with
  | [] => none
  | errs => some (String.intercalate "\n" errs)

/-! ## The database -/

/-- The state of the database created by `initDB` (lines 43-56): the rows of
the two tables, oldest first, and the next value of each `SERIAL` sequence. -/
structure DB where
  resource_types : List ResourceType
  resource_data : List ResourceData
  resource_types_id_seq : Int
  resource_data_id_seq : Int

/-- The database right after `initDB` on an empty server. -/
def DB.init : DB := ⟨[], [], 1, 1⟩

/-- An error returned by `QueryRow(...).Scan(...)`: `sql.ErrNoRows` or any
other error, with its text. -/
inductive SqlError where
  | ErrNoRows
  | other (text : String)

/-- The method `Error()` of a database error. -/
def SqlError.Error : SqlError → String
  | .ErrNoRows => "sql: no rows in result set"
  | .other text => text

/-- The statement `SELECT id, schema FROM resource_types WHERE name = $1`
scanned into `(&resourceType.ID, &resourceType.Schema)`. -/
def selectResourceType (db : DB) (fault : Option String) (name : String) :
    Except SqlError (Int × RawMessage) :=
  match fault with
  | some text => .error (.other text)
  | none =>
    match db.resource_types.find? (fun row => row.Name == name) with
    | none => .error .ErrNoRows
    | some row => .ok (row.ID, row.Schema)

/-- The statement
`INSERT INTO resource_types (name, schema) VALUES ($1, $2) RETURNING id`
under the constraints of the table: `schema JSONB NOT NULL`,
`name VARCHAR(255) UNIQUE`, `id SERIAL PRIMARY KEY`. -/
def insertResourceType (db : DB) (fault : Option String) (name : String)
    (schema : RawMessage) : Except SqlError Int × DB :=
  match fault with
  | some text => (.error (.other text), db)
  | none =>
    match schema with
    | .nil =>
      (.error (.other "pq: null value in column \"schema\" violates not-null constraint"), db)
    | .malformed _ => (.error (.other "pq: invalid input syntax for type json"), db)
    | .valid _ =>
      if name.length > 255 then
        (.error (.other "pq: value too long for type character varying(255)"), db)
      else if db.resource_types_id_seq > 2147483647 then
        (.error (.other "pq: integer out of range"), db)
      else if db.resource_types.any (fun row => row.ID == db.resource_types_id_seq) then
        (.error (.other
          "pq: duplicate key value violates unique constraint \"resource_types_pkey\""), db)
      else if db.resource_types.any (fun row => row.Name == name) then
        (.error (.other
          "pq: duplicate key value violates unique constraint \"resource_types_name_key\""), db)
      else
        (.ok db.resource_types_id_seq,
          { db with
            resource_types := db.resource_types ++ [⟨db.resource_types_id_seq, name, schema⟩]
            resource_types_id_seq := db.resource_types_id_seq + 1 })

/-- The statement
`INSERT INTO resource_data (resource_type_id, data) VALUES ($1, $2) RETURNING id`
under the constraints of the table: `data JSONB NOT NULL`,
`resource_type_id INT NOT NULL REFERENCES resource_types(id)`,
`id SERIAL PRIMARY KEY`. -/
def insertResourceData (db : DB) (fault : Option String) (resource_type_id : Int)
    (data : RawMessage) : Except SqlError Int × DB :=
  match fault with
  | some text => (.error (.other text), db)
  | none =>
    match data with
    | .nil =>
      (.error (.other "pq: null value in column \"data\" violates not-null constraint"), db)
    | .malformed _ => (.error (.other "pq: invalid input syntax for type json"), db)
    | .valid _ =>
      if db.resource_data_id_seq > 2147483647 then
        (.error (.other "pq: integer out of range"), db)
      else if db.resource_data.any (fun row => row.ID == db.resource_data_id_seq) then
        (.error (.other
          "pq: duplicate key value violates unique constraint \"resource_data_pkey\""), db)
      else if !db.resource_types.any (fun row => row.ID == resource_type_id) then
        (.error (.other ("pq: insert or update on table \"resource_data\" violates " ++
          "foreign key constraint \"resource_data_resource_type_id_fkey\"")), db)
      else
        (.ok db.resource_data_id_seq,
          { db with
            resource_data :=
              db.resource_data ++ [⟨db.resource_data_id_seq, resource_type_id, data⟩]
            resource_data_id_seq := db.resource_data_id_seq + 1 })

/-! ## The handlers -/

/-- A statement sent to the database by a handler. -/
inductive Statement where
  | selectResourceType (name : String)
  | insertResourceType (name : String) (schema : RawMessage)
  | insertResourceData (resource_type_id : Int) (data : RawMessage)

/-- What a handler writes to the `http.ResponseWriter` after the status line:
the text of `http.Error`, or the struct given to `json.NewEncoder(w).Encode`. -/
inductive ResponseBody where
  | text (msg : String)
  | resourceType (rt : ResourceType)
  | resourceData (rd : ResourceData)

/-- The HTTP response of a handler. -/
structure Response where
  status : Nat
  body : ResponseBody

/-- The call `http.Error(w, msg, code)`: the status and the message followed by
a line feed. -/
def httpError (msg : String) (code : Nat) : Response :=
  ⟨code, .text (msg ++ "\n")⟩

def StatusCreated : Nat := 201
def StatusBadRequest : Nat := 400
def StatusNotFound : Nat := 404
def StatusConflict : Nat := 409
def StatusInternalServerError : Nat := 500

/-- One run of a handler: the response, the database afterwards and the
statements sent to the database, in order. -/
structure Outcome where
  response : Response
  db : DB
  issued : List Statement

/-- The handler `createResourceType` of `main.go` (lines 78-100). `insertFault`
is the fault, if any, that hits the `INSERT`. -/
def createResourceType (db : DB) (insertFault : Option String) (body : RequestBody) :
    Outcome :=
  match decodeResourceType body with
  | .error err =>
    ⟨httpError ("Invalid request body: " ++ err) StatusBadRequest, db, []⟩
  | .ok resourceType =>
    match validateStruct resourceType with
    | some err => ⟨httpError ("Validation error: " ++ err) StatusBadRequest, db, []⟩
    | none =>
      match insertResourceType db insertFault resourceType.Name resourceType.Schema with
      | (.error err, db1) =>
        ⟨httpError ("Failed to insert resource type: " ++ err.Error) StatusInternalServerError,
          db1, [.insertResourceType resourceType.Name resourceType.Schema]⟩
      | (.ok id, db1) =>
        ⟨⟨StatusCreated, .resourceType { resourceType with ID := id }⟩,
          db1, [.insertResourceType resourceType.Name resourceType.Schema]⟩

/-- The handler `validateAndStoreResourceData` of `main.go` (lines 103-142).
`resourceTypeName` is the path variable `resource_type_name`; `selectFault` and
`insertFault` are the faults, if any, that hit the `SELECT` and the `INSERT`.
The struct written on success is the local `resourceData`, of which only `ID`
was assigned. -/
def validateAndStoreResourceData (lib : SchemaLibrary) (db : DB)
    (selectFault insertFault : Option String) (resourceTypeName : String)
    (body : RequestBody) : Outcome :=
  match selectResourceType db selectFault resourceTypeName with
  | .error .ErrNoRows =>
    ⟨httpError "Resource type not found" StatusNotFound, db,
      [.selectResourceType resourceTypeName]⟩
  | .error err =>
    ⟨httpError ("Database error: " ++ err.Error) StatusInternalServerError, db,
      [.selectResourceType resourceTypeName]⟩
  | .ok (typeID, typeSchema) =>
    match decodeRawMessage body with
    | .error err =>
      ⟨httpError ("Invalid request body: " ++ err) StatusBadRequest, db,
        [.selectResourceType resourceTypeName]⟩
    | .ok incomingData =>
      if !validateJSONAgainstSchema lib typeSchema incomingData then
        ⟨httpError "Validation failed: data does not conform to schema" StatusBadRequest, db,
          [.selectResourceType resourceTypeName]⟩
      else
        match insertResourceData db insertFault typeID incomingData with
        | (.error err, db1) =>
          ⟨httpError ("Failed to insert resource data: " ++ err.Error)
              StatusInternalServerError,
            db1, [.selectResourceType resourceTypeName, .insertResourceData typeID incomingData]⟩
        | (.ok id, db1) =>
          ⟨⟨StatusCreated, .resourceData ⟨id, 0, .nil⟩⟩,
            db1, [.selectResourceType resourceTypeName, .insertResourceData typeID incomingData]⟩

/-! ## A reference instance of the library

The theorems below hold for every `SchemaLibrary`. To run the handlers on
concrete requests an instance is needed. `fragmentLibrary` is not the
`qri-io/jsonschema` code: it evaluates, as JSON Schema defines them, the
keywords `required`, `properties` (its member names) and `additionalProperties`
(a boolean) of an object schema on an object document, and refuses a schema
that is not an object. It is used on the sample schemas below only, which use
no other keyword. -/

/-- A schema of `fragmentLibrary`. -/
structure FragmentSchema where
  required : List String
  properties : List String
  additionalAllowed : Bool

/-- The strings of a JSON array. -/
def stringItems : List JSONValue → List String
  | [] => []
  | .string s :: rest => s :: stringItems rest
  | _ :: rest => stringItems rest

/-- Loading of an object schema by `fragmentLibrary`. -/
def fragmentUnmarshal : JSONValue → Except String FragmentSchema
  | .object members =>
    .ok
      { required :=
          match mapIndex members "required" with
          | some (.array items) => stringItems items
          | _ => []
        properties :=
          match mapIndex members "properties" with
          | some (.object props) => props.map (fun kv => kv.1)
          | _ => []
        additionalAllowed :=
          match mapIndex members "additionalProperties" with
          | some (.bool false) => false
          | _ => true }
  | v => .error ("schema is a JSON " ++ v.kind ++ ", expected an object")

/-- Evaluation of a `FragmentSchema` on a document: one entry for every
required member that is missing and, when additional properties are forbidden,
one for every member that `properties` does not declare. -/
def fragmentValidate (rs : FragmentSchema) : RawMessage → List KeyError × Option String
  | .nil => ([], some "error parsing JSON bytes: unexpected end of JSON input")
  | .malformed err => ([], some ("error parsing JSON bytes: " ++ err))
  | .valid (.object members) =>
    (((rs.required.filter (fun k => (mapIndex members k).isNone)).map
        (fun k => KeyError.mk "/" ("\"" ++ k ++ "\" value is required"))) ++
      (if rs.additionalAllowed then []
       else ((members.map (fun kv => kv.1)).filter (fun k => !rs.properties.contains k)).map
        (fun k => KeyError.mk ("/" ++ k) "cannot match schema")),
     none)
  | .valid _ => ([], none)

/-- The reference instance. -/
def fragmentLibrary : SchemaLibrary :=
  ⟨FragmentSchema, fragmentUnmarshal, fragmentValidate⟩

/-- The schema document `{"additionalProperties": false, "required": ["x"],
"properties": {"x": {}}}`. -/
def strictSchema : RawMessage :=
  .valid (.object [("additionalProperties", .bool false),
    ("required", .array [.string "x"]), ("properties", .object [("x", .object [])])])

/-- The schema document `{"required": ["x"], "properties": {"x": {}}}`, which
leaves `additionalProperties` out. -/
def looseSchema : RawMessage :=
  .valid (.object [("required", .array [.string "x"]),
    ("properties", .object [("x", .object [])])])

/-- The schema document `{"additionalProperties": false, "maximum": 1e400}`. -/
def overflowSchema : RawMessage :=
  .valid (.object [("additionalProperties", .bool false), ("maximum", .number "1e400")])

/-- A database with the two resource types `strict` (id 1) and `loose` (id 2)
and no data. -/
def sampleDB : DB :=
  ⟨[⟨1, "strict", strictSchema⟩, ⟨2, "loose", looseSchema⟩], [], 3, 1⟩

/-- The data document `{"x": 5}`. -/
def goodData : JSONValue := .object [("x", .number "5")]

/-- The data document `{"y": 1}`: `x` is missing and `y` is not declared. -/
def badData : JSONValue := .object [("y", .number "1")]

/-- The request body `{"name": "loose", "schema": {"required": ["x"],
"properties": {"x": {}}}}`: a registration of the schema `looseSchema`. -/
def looseRegistration : RequestBody :=
  .value (.object [("name", .string "loose"), ("schema", .object
    [("required", .array [.string "x"]), ("properties", .object [("x", .object [])])])])

/-- The request body `{"name": "strict", "schema": {"additionalProperties":
false}}`: a registration under a name that `sampleDB` already holds. -/
def strictRegistration : RequestBody :=
  .value (.object [("name", .string "strict"),
    ("schema", .object [("additionalProperties", .bool false)])])

/-! ## Lemmas on the building blocks -/

/-- The sanity check passes exactly on an object that decodes into a map (no
number of it overflows `float64`) which holds the boolean `false` under
`additionalProperties`. -/
theorem checkAdditionalProperties_eq_true_iff (schema : RawMessage) :
    checkAdditionalProperties schema = true ↔
      ∃ members, schema = .valid (.object members) ∧ firstOverflowMembers members = none ∧
        mapIndex members "additionalProperties" = some (.bool false) := by
  constructor
  · intro h
    unfold checkAdditionalProperties at h
    cases schema with
    | nil => simp [unmarshalMap] at h
    | malformed err => simp [unmarshalMap] at h
    | valid v =>
      cases v with
      | object members =>
        simp only [unmarshalMap] at h
        cases ho : firstOverflowMembers members with
        | some literal => simp [ho] at h
        | none =>
          refine ⟨members, rfl, ho, ?_⟩
          cases hm : mapIndex members "additionalProperties" with
          | none => simp [ho, hm] at h
          | some ap =>
            cases ap with
            | bool b => cases b <;> simp [ho, hm] at h ⊢
            | _ => simp [ho, hm] at h
      | null => simp [unmarshalMap, mapIndex] at h
      | _ => simp [unmarshalMap] at h
  · rintro ⟨members, rfl, ho, hm⟩
    simp [checkAdditionalProperties, unmarshalMap, ho, hm]

/-- The four tests of `validateJSONAgainstSchema`, read off its body. -/
theorem validateJSONAgainstSchema_eq_true_iff (lib : SchemaLibrary) (schema data : RawMessage) :
    validateJSONAgainstSchema lib schema data = true ↔
      checkAdditionalProperties schema = true ∧
      ∃ rs, unmarshalSchema lib schema = .ok rs ∧
        (lib.ValidateBytes rs data).2 = none ∧ (lib.ValidateBytes rs data).1 = [] := by
  unfold validateJSONAgainstSchema
  cases hu : unmarshalSchema lib schema with
  | error e => simp
  | ok rs =>
    cases hc : checkAdditionalProperties schema with
    | false => simp
    | true =>
      rcases hv : lib.ValidateBytes rs data with ⟨errs, err⟩
      cases err with
      | some e => simp [hv]
      | none =>
        cases errs with
        | nil => simp [hv]
        | cons a t => simp [hv]


/-- An `INSERT` into `resource_data` that fails changes nothing. -/
theorem insertResourceData_error_db (db : DB) (fault : Option String) (tid : Int)
    (d : RawMessage) (err : SqlError) (db1 : DB)
    (h : insertResourceData db fault tid d = (.error err, db1)) : db1 = db := by
  unfold insertResourceData at h
  split at h
  · simp at h; exact h.2.symm
  · split at h
    · simp at h; exact h.2.symm
    · simp at h; exact h.2.symm
    · split_ifs at h <;> simp at h <;> exact h.2.symm

/-- An `INSERT` into `resource_data` that succeeds returns the next value of
the sequence and appends the row. -/
theorem insertResourceData_ok_db (db : DB) (fault : Option String) (tid : Int)
    (d : RawMessage) (id : Int) (db1 : DB)
    (h : insertResourceData db fault tid d = (.ok id, db1)) :
    id = db.resource_data_id_seq ∧
    db1 = { db with
      resource_data := db.resource_data ++ [⟨db.resource_data_id_seq, tid, d⟩]
      resource_data_id_seq := db.resource_data_id_seq + 1 } := by
  unfold insertResourceData at h
  split at h
  · simp at h
  · split at h
    · simp at h
    · simp at h
    · split_ifs at h <;> simp at h
      exact ⟨h.1.symm, h.2.symm⟩

/-- The run of `validateAndStoreResourceData` when the `SELECT` finds no row. -/
theorem submit_not_found (lib : SchemaLibrary) (db : DB) (sf fi : Option String)
    (name : String) (body : RequestBody)
    (h : selectResourceType db sf name = .error .ErrNoRows) :
    validateAndStoreResourceData lib db sf fi name body =
      ⟨httpError "Resource type not found" StatusNotFound, db, [.selectResourceType name]⟩ := by
  unfold validateAndStoreResourceData
  rw [h]

/-- The run of `validateAndStoreResourceData` when the `SELECT` fails. -/
theorem submit_select_fault (lib : SchemaLibrary) (db : DB) (sf fi : Option String)
    (name : String) (body : RequestBody) (text : String)
    (h : selectResourceType db sf name = .error (.other text)) :
    validateAndStoreResourceData lib db sf fi name body =
      ⟨httpError ("Database error: " ++ text) StatusInternalServerError, db,
        [.selectResourceType name]⟩ := by
  unfold validateAndStoreResourceData
  rw [h]
  rfl

/-- The run of `validateAndStoreResourceData` on a body that is not JSON. -/
theorem submit_malformed (lib : SchemaLibrary) (db : DB) (sf fi : Option String)
    (name : String) (err : String) (tid : Int) (schema : RawMessage)
    (h : selectResourceType db sf name = .ok (tid, schema)) :
    validateAndStoreResourceData lib db sf fi name (.malformed err) =
      ⟨httpError ("Invalid request body: " ++ err) StatusBadRequest, db,
        [.selectResourceType name]⟩ := by
  unfold validateAndStoreResourceData
  rw [h]
  rfl

/-- The run of `validateAndStoreResourceData` when validation fails. -/
theorem submit_invalid (lib : SchemaLibrary) (db : DB) (sf fi : Option String)
    (name : String) (v : JSONValue) (tid : Int) (schema : RawMessage)
    (h : selectResourceType db sf name = .ok (tid, schema))
    (hv : validateJSONAgainstSchema lib schema (.valid v) = false) :
    validateAndStoreResourceData lib db sf fi name (.value v) =
      ⟨httpError "Validation failed: data does not conform to schema" StatusBadRequest, db,
        [.selectResourceType name]⟩ := by
  unfold validateAndStoreResourceData
  rw [h]
  simp [decodeRawMessage, hv]

/-- The run of `validateAndStoreResourceData` when validation passes. -/
theorem submit_valid (lib : SchemaLibrary) (db : DB) (sf fi : Option String)
    (name : String) (v : JSONValue) (tid : Int) (schema : RawMessage)
    (h : selectResourceType db sf name = .ok (tid, schema))
    (hv : validateJSONAgainstSchema lib schema (.valid v) = true) :
    validateAndStoreResourceData lib db sf fi name (.value v) =
      match insertResourceData db fi tid (.valid v) with
      | (.error err, db1) =>
        ⟨httpError ("Failed to insert resource data: " ++ err.Error) StatusInternalServerError,
          db1, [.selectResourceType name, .insertResourceData tid (.valid v)]⟩
      | (.ok id, db1) =>
        ⟨⟨StatusCreated, .resourceData ⟨id, 0, .nil⟩⟩,
          db1, [.selectResourceType name, .insertResourceData tid (.valid v)]⟩ := by
  unfold validateAndStoreResourceData
  rw [h]
  simp [decodeRawMessage, hv]


/-! ## The sanity check and the admission decision -/

/-- C1, as the code has it: `checkAdditionalProperties` returns true exactly
when `json.Unmarshal` decodes the document into a map without an error (the
document is a JSON object and no number in it, at any depth, overflows
`float64`) and the root-level key `additionalProperties` holds the boolean
`false`. It returns false (and always returns) for bytes that are not JSON,
for a document that is not an object, for an object with a number that
overflows `float64`, for an object without the key, for the values `true`,
`null`, `"false"`, `0` and an object under the key, and for a document whose
only `additionalProperties: false` sits inside a sub-schema. -/
theorem checkAdditionalProperties_root_false_only (schema : RawMessage) :
    (checkAdditionalProperties schema = true ↔
      ∃ members, schema = .valid (.object members) ∧ firstOverflowMembers members = none ∧
        mapIndex members "additionalProperties" = some (.bool false)) ∧
    checkAdditionalProperties .nil = false ∧
    (∀ err, checkAdditionalProperties (.malformed err) = false) ∧
    (∀ b, checkAdditionalProperties (.valid (.bool b)) = false) ∧
    checkAdditionalProperties (.valid .null) = false ∧
    (∀ literal, checkAdditionalProperties (.valid (.number literal)) = false) ∧
    (∀ s, checkAdditionalProperties (.valid (.string s)) = false) ∧
    (∀ items, checkAdditionalProperties (.valid (.array items)) = false) ∧
    (∀ members, mapIndex members "additionalProperties" = none →
      checkAdditionalProperties (.valid (.object members)) = false) ∧
    (∀ members literal, firstOverflowMembers members = some literal →
      checkAdditionalProperties (.valid (.object members)) = false) ∧
    checkAdditionalProperties
      (.valid (.object [("additionalProperties", .bool true)])) = false ∧
    checkAdditionalProperties
      (.valid (.object [("additionalProperties", .null)])) = false ∧
    checkAdditionalProperties
      (.valid (.object [("additionalProperties", .string "false")])) = false ∧
    checkAdditionalProperties
      (.valid (.object [("additionalProperties", .number "0")])) = false ∧
    checkAdditionalProperties
      (.valid (.object [("additionalProperties", .object [])])) = false ∧
    checkAdditionalProperties
      (.valid (.object [("type", .string "object"), ("properties", .object
        [("p", .object [("type", .string "object"),
          ("additionalProperties", .bool false)])])])) = false := by
  refine ⟨checkAdditionalProperties_eq_true_iff schema, rfl, fun _ => rfl, fun _ => rfl, rfl,
    fun _ => rfl, fun _ => rfl, fun _ => rfl, ?_, ?_, by decide, by decide, by decide,
    by decide, by decide, by decide⟩
  · intro members hm
    cases ho : firstOverflowMembers members <;>
      simp [checkAdditionalProperties, unmarshalMap, ho, hm]
  · intro members literal ho
    simp [checkAdditionalProperties, unmarshalMap, ho]

/-- An instance of C1 as amended: the strict sample schema passes, a schema that
only declares properties is refused because the key is absent at its root,
and a schema with the number `1e400` is refused whatever its root says. -/
theorem checkAdditionalProperties_root_false_only_witness :
    checkAdditionalProperties strictSchema = true ∧
    checkAdditionalProperties looseSchema = false ∧
    checkAdditionalProperties overflowSchema = false :=
  ⟨((checkAdditionalProperties_root_false_only strictSchema).1).2 ⟨_, rfl, rfl, rfl⟩,
    (checkAdditionalProperties_root_false_only looseSchema).2.2.2.2.2.2.2.2.1 _ rfl,
    (checkAdditionalProperties_root_false_only overflowSchema).2.2.2.2.2.2.2.2.2.1 _ "1e400"
      (by decide)⟩

/-- C1 fails as stated: the document `{"additionalProperties": false,
"maximum": 1e400}` is a JSON object whose root-level key `additionalProperties`
holds the boolean `false`, and `checkAdditionalProperties` returns false on
it, because `json.Unmarshal` reports that `1e400` does not fit `float64`. -/
theorem checkAdditionalProperties_false_on_overflowing_number :
    overflowSchema = .valid (.object [("additionalProperties", .bool false),
      ("maximum", .number "1e400")]) ∧
    mapIndex [("additionalProperties", .bool false), ("maximum", .number "1e400")]
      "additionalProperties" = some (.bool false) ∧
    unmarshalMap overflowSchema =
      .error "json: cannot unmarshal number 1e400 into Go value of type float64" ∧
    checkAdditionalProperties overflowSchema = false :=
  ⟨rfl, rfl, rfl, by decide⟩

/-- C2: `validateJSONAgainstSchema` returns true exactly when the sanity check
passes, the schema loads into a `jsonschema.Schema` and `ValidateBytes` reports
no error, and the list of violations is empty. -/
theorem validateJSONAgainstSchema_true_iff_three_checks (lib : SchemaLibrary) (schema data : RawMessage) :
    validateJSONAgainstSchema lib schema data = true ↔
      checkAdditionalProperties schema = true ∧
      (∃ rs, unmarshalSchema lib schema = .ok rs ∧ (lib.ValidateBytes rs data).2 = none ∧
        (lib.ValidateBytes rs data).1 = []) :=
  validateJSONAgainstSchema_eq_true_iff lib schema data


/-- An instance of C2: the strict sample schema with the document `{"x": 5}`. -/
theorem validateJSONAgainstSchema_true_iff_three_checks_witness :
    validateJSONAgainstSchema fragmentLibrary strictSchema (.valid goodData) = true :=
  (validateJSONAgainstSchema_true_iff_three_checks fragmentLibrary strictSchema
    (.valid goodData)).2 ⟨rfl, ⟨["x"], ["x"], false⟩, rfl, rfl, rfl⟩

/-- A schema that fails the sanity check fails `validateJSONAgainstSchema`,
whatever the data is. -/
theorem validate_false_of_not_strict (lib : SchemaLibrary) (schema data : RawMessage)
    (h : checkAdditionalProperties schema = false) :
    validateJSONAgainstSchema lib schema data = false := by
  cases hv : validateJSONAgainstSchema lib schema data with
  | false => rfl
  | true =>
    have := ((validateJSONAgainstSchema_eq_true_iff lib schema data).1 hv).1
    rw [h] at this
    cases this

/-- The `SELECT` without a fault returns the first row with the given name. -/
theorem select_of_find (db : DB) (name : String) (row : ResourceType)
    (h : db.resource_types.find? (fun r => r.Name == name) = some row) :
    selectResourceType db none name = .ok (row.ID, row.Schema) := by
  simp [selectResourceType, h]

/-- The `SELECT` under a fault returns that fault. -/
theorem select_of_fault (db : DB) (name text : String) :
    selectResourceType db (some text) name = .error (.other text) := rfl

/-! ## The submit handler -/

/-- C3: `validateAndStoreResourceData` sends the insert into `resource_data`
only if the resource type was found, the body parsed as JSON and
`validateJSONAgainstSchema` returned true on the stored schema and the body;
the statement then carries the id of the type found and the submitted
document, and the row it adds is that pair. When the type is not found, the
lookup fails, the body is malformed or validation fails, no insert is sent and
the database is unchanged. -/
theorem validateAndStoreResourceData_insert_gate (lib : SchemaLibrary) (db : DB)
    (sf fi : Option String) (name : String) (body : RequestBody) :
    (∀ tid d, Statement.insertResourceData tid d ∈
        (validateAndStoreResourceData lib db sf fi name body).issued →
      ∃ schema v, selectResourceType db sf name = .ok (tid, schema) ∧ body = .value v ∧
        d = .valid v ∧ validateJSONAgainstSchema lib schema (.valid v) = true) ∧
    (selectResourceType db sf name = .error .ErrNoRows →
      (validateAndStoreResourceData lib db sf fi name body).db = db ∧
      ∀ tid d, Statement.insertResourceData tid d ∉
        (validateAndStoreResourceData lib db sf fi name body).issued) ∧
    (∀ text, selectResourceType db sf name = .error (.other text) →
      (validateAndStoreResourceData lib db sf fi name body).db = db ∧
      ∀ tid d, Statement.insertResourceData tid d ∉
        (validateAndStoreResourceData lib db sf fi name body).issued) ∧
    (∀ err, body = .malformed err →
      (validateAndStoreResourceData lib db sf fi name body).db = db ∧
      ∀ tid d, Statement.insertResourceData tid d ∉
        (validateAndStoreResourceData lib db sf fi name body).issued) ∧
    (∀ tid schema v, selectResourceType db sf name = .ok (tid, schema) → body = .value v →
      validateJSONAgainstSchema lib schema (.valid v) = false →
      (validateAndStoreResourceData lib db sf fi name body).db = db ∧
      ∀ tid1 d, Statement.insertResourceData tid1 d ∉
        (validateAndStoreResourceData lib db sf fi name body).issued) ∧
    (∀ tid schema v, selectResourceType db sf name = .ok (tid, schema) → body = .value v →
      validateJSONAgainstSchema lib schema (.valid v) = true →
      (validateAndStoreResourceData lib db sf fi name body).issued =
        [.selectResourceType name, .insertResourceData tid (.valid v)] ∧
      ((validateAndStoreResourceData lib db sf fi name body).db = db ∨
       (validateAndStoreResourceData lib db sf fi name body).db =
        { db with
          resource_data := db.resource_data ++ [⟨db.resource_data_id_seq, tid, .valid v⟩]
          resource_data_id_seq := db.resource_data_id_seq + 1 })) := by
  have hok : ∀ tid schema v, selectResourceType db sf name = .ok (tid, schema) →
      body = .value v → validateJSONAgainstSchema lib schema (.valid v) = true →
      (validateAndStoreResourceData lib db sf fi name body).issued =
        [.selectResourceType name, .insertResourceData tid (.valid v)] ∧
      ((validateAndStoreResourceData lib db sf fi name body).db = db ∨
       (validateAndStoreResourceData lib db sf fi name body).db =
        { db with
          resource_data := db.resource_data ++ [⟨db.resource_data_id_seq, tid, .valid v⟩]
          resource_data_id_seq := db.resource_data_id_seq + 1 }) := by
    intro tid schema v hs hb hv
    subst hb
    rw [submit_valid lib db sf fi name v tid schema hs hv]
    rcases hi : insertResourceData db fi tid (.valid v) with ⟨res, db1⟩
    cases res with
    | error err =>
      exact ⟨rfl, Or.inl (insertResourceData_error_db db fi tid _ err db1 hi)⟩
    | ok id =>
      exact ⟨rfl, Or.inr (insertResourceData_ok_db db fi tid _ id db1 hi).2⟩
  refine ⟨?_, ?_, ?_, ?_, ?_, hok⟩
  · intro tid d hmem
    cases hs : selectResourceType db sf name with
    | error e =>
      cases e with
      | ErrNoRows => rw [submit_not_found lib db sf fi name body hs] at hmem; simp at hmem
      | other text => rw [submit_select_fault lib db sf fi name body text hs] at hmem; simp at hmem
    | ok p =>
      obtain ⟨tid0, schema⟩ := p
      cases body with
      | malformed err =>
        rw [submit_malformed lib db sf fi name err tid0 schema hs] at hmem; simp at hmem
      | value v =>
        cases hv : validateJSONAgainstSchema lib schema (.valid v) with
        | false => rw [submit_invalid lib db sf fi name v tid0 schema hs hv] at hmem; simp at hmem
        | true =>
          rw [(hok tid0 schema v hs rfl hv).1] at hmem
          simp at hmem
          obtain ⟨h1, h2⟩ := hmem
          subst h1 h2
          exact ⟨schema, v, rfl, rfl, rfl, hv⟩
  · intro hs
    rw [submit_not_found lib db sf fi name body hs]
    simp
  · intro text hs
    rw [submit_select_fault lib db sf fi name body text hs]
    simp
  · intro err hb
    subst hb
    cases hs : selectResourceType db sf name with
    | error e =>
      cases e with
      | ErrNoRows => rw [submit_not_found lib db sf fi name _ hs]; simp
      | other text => rw [submit_select_fault lib db sf fi name _ text hs]; simp
    | ok p =>
      obtain ⟨tid0, schema⟩ := p
      rw [submit_malformed lib db sf fi name err tid0 schema hs]; simp
  · intro tid schema v hs hb hv
    subst hb
    rw [submit_invalid lib db sf fi name v tid schema hs hv]
    simp

/-- An instance of C3: on the sample database a valid document for `strict`
is inserted under the id of `strict`, and an invalid one is not. -/
theorem validateAndStoreResourceData_insert_gate_witness :
    ((validateAndStoreResourceData fragmentLibrary sampleDB none none "strict"
        (.value goodData)).issued =
      [.selectResourceType "strict", .insertResourceData 1 (.valid goodData)] ∧
     ((validateAndStoreResourceData fragmentLibrary sampleDB none none "strict"
        (.value goodData)).db = sampleDB ∨
      (validateAndStoreResourceData fragmentLibrary sampleDB none none "strict"
        (.value goodData)).db =
        { sampleDB with
          resource_data := sampleDB.resource_data ++
            [⟨sampleDB.resource_data_id_seq, 1, .valid goodData⟩]
          resource_data_id_seq := sampleDB.resource_data_id_seq + 1 })) ∧
    ((validateAndStoreResourceData fragmentLibrary sampleDB none none "strict"
        (.value badData)).db = sampleDB ∧
      ∀ tid d, Statement.insertResourceData tid d ∉
        (validateAndStoreResourceData fragmentLibrary sampleDB none none "strict"
          (.value badData)).issued) :=
  ⟨(validateAndStoreResourceData_insert_gate fragmentLibrary sampleDB none none "strict"
      (.value goodData)).2.2.2.2.2 1 strictSchema goodData rfl rfl rfl,
    (validateAndStoreResourceData_insert_gate fragmentLibrary sampleDB none none "strict"
      (.value badData)).2.2.2.2.1 1 strictSchema badData rfl rfl rfl⟩

/-- C5: when the stored schema of the resource type leaves out the root-level
`additionalProperties` or sets it to `true`, every submission is rejected
(the response is never `201 Created`), no insert is sent and the database is
unchanged, for every data document and every validator. -/
theorem nonstrict_schema_rejects_every_submission (lib : SchemaLibrary) (db : DB)
    (sf fi : Option String) (name : String) (body : RequestBody) (row : ResourceType)
    (members : List (String × JSONValue))
    (hreg : db.resource_types.find? (fun r => r.Name == name) = some row)
    (hschema : row.Schema = .valid (.object members))
    (hap : mapIndex members "additionalProperties" = none ∨
      mapIndex members "additionalProperties" = some (.bool true)) :
    (validateAndStoreResourceData lib db sf fi name body).response.status ≠ StatusCreated ∧
    (validateAndStoreResourceData lib db sf fi name body).db = db ∧
    (∀ tid d, Statement.insertResourceData tid d ∉
      (validateAndStoreResourceData lib db sf fi name body).issued) ∧
    (sf = none → ∀ v, body = .value v →
      (validateAndStoreResourceData lib db sf fi name body).response =
        httpError "Validation failed: data does not conform to schema" StatusBadRequest) := by
  have hns : checkAdditionalProperties row.Schema = false := by
    cases hc : checkAdditionalProperties row.Schema with
    | false => rfl
    | true =>
      obtain ⟨m, hm, _, hk⟩ := (checkAdditionalProperties_eq_true_iff _).1 hc
      rw [hschema] at hm
      injection hm with hm
      injection hm with hm
      subst hm
      rcases hap with h | h <;> rw [h] at hk <;> simp at hk
  cases sf with
  | some text =>
    rw [submit_select_fault lib db (some text) fi name body text (select_of_fault db name text)]
    simp [httpError, StatusInternalServerError, StatusCreated]
  | none =>
    have hs := select_of_find db name row hreg
    cases body with
    | malformed err =>
      rw [submit_malformed lib db none fi name err row.ID row.Schema hs]
      simp [httpError, StatusBadRequest, StatusCreated]
    | value v =>
      rw [submit_invalid lib db none fi name v row.ID row.Schema hs
        (validate_false_of_not_strict lib _ _ hns)]
      simp [httpError, StatusBadRequest, StatusCreated]

/-- An instance of C5: the document `{"x": 5}` meets every constraint of the
schema of `loose`, and is rejected because that schema is not strict. -/
theorem nonstrict_schema_rejects_every_submission_witness :
    (fragmentValidate ⟨["x"], ["x"], true⟩ (.valid goodData)).1 = [] ∧
    (validateAndStoreResourceData fragmentLibrary sampleDB none none "loose"
      (.value goodData)).response.status ≠ StatusCreated ∧
    (validateAndStoreResourceData fragmentLibrary sampleDB none none "loose"
      (.value goodData)).db = sampleDB ∧
    (∀ tid d, Statement.insertResourceData tid d ∉
      (validateAndStoreResourceData fragmentLibrary sampleDB none none "loose"
        (.value goodData)).issued) ∧
    (validateAndStoreResourceData fragmentLibrary sampleDB none none "loose"
      (.value goodData)).response =
        httpError "Validation failed: data does not conform to schema" StatusBadRequest :=
  have h := nonstrict_schema_rejects_every_submission fragmentLibrary sampleDB none none "loose"
    (.value goodData) ⟨2, "loose", looseSchema⟩
    [("required", .array [.string "x"]), ("properties", .object [("x", .object [])])]
    rfl rfl (Or.inl rfl)
  ⟨rfl, h.1, h.2.1, h.2.2.1, h.2.2.2 rfl goodData rfl⟩


/-! ## The register handler -/

/-- The run of `createResourceType` when the body does not decode. -/
theorem create_decode_error (db : DB) (fi : Option String) (body : RequestBody) (err : String)
    (h : decodeResourceType body = .error err) :
    createResourceType db fi body =
      ⟨httpError ("Invalid request body: " ++ err) StatusBadRequest, db, []⟩ := by
  unfold createResourceType
  rw [h]

/-- The run of `createResourceType` when a required field is missing. -/
theorem create_validation_error (db : DB) (fi : Option String) (body : RequestBody)
    (rt : ResourceType) (err : String)
    (h : decodeResourceType body = .ok rt) (hv : validateStruct rt = some err) :
    createResourceType db fi body =
      ⟨httpError ("Validation error: " ++ err) StatusBadRequest, db, []⟩ := by
  unfold createResourceType
  rw [h]
  simp only [hv]

/-- The run of `createResourceType` when the request reaches the `INSERT`. -/
theorem create_insert (db : DB) (fi : Option String) (body : RequestBody)
    (rt : ResourceType)
    (h : decodeResourceType body = .ok rt) (hv : validateStruct rt = none) :
    createResourceType db fi body =
      match insertResourceType db fi rt.Name rt.Schema with
      | (.error err, db1) =>
        ⟨httpError ("Failed to insert resource type: " ++ err.Error) StatusInternalServerError,
          db1, [.insertResourceType rt.Name rt.Schema]⟩
      | (.ok id, db1) =>
        ⟨⟨StatusCreated, .resourceType { rt with ID := id }⟩,
          db1, [.insertResourceType rt.Name rt.Schema]⟩ := by
  unfold createResourceType
  rw [h]
  simp only [hv]

/-- A struct that passes `validate.Struct` has a name and a schema. -/
theorem validateStruct_none (rt : ResourceType) (h : validateStruct rt = none) :
    rt.Name ≠ "" ∧ rt.Schema ≠ .nil := by
  unfold validateStruct at h
  constructor
  · intro hn
    simp [hn] at h
  · intro hs
    rw [hs] at h
    by_cases hn : rt.Name = "" <;> simp [hn] at h

/-- The `INSERT` of a name that the table already holds fails. -/
theorem insertResourceType_duplicate (db : DB) (fi : Option String) (name : String)
    (schema : RawMessage)
    (hdup : db.resource_types.any (fun row => row.Name == name) = true) :
    ∃ text, insertResourceType db fi name schema = (.error (.other text), db) := by
  unfold insertResourceType
  cases fi with
  | some text => exact ⟨text, rfl⟩
  | none =>
    cases schema with
    | nil => exact ⟨_, rfl⟩
    | malformed e => exact ⟨_, rfl⟩
    | valid v =>
      simp only
      split_ifs
      · exact ⟨_, rfl⟩
      · exact ⟨_, rfl⟩
      · exact ⟨_, rfl⟩
      · exact ⟨_, rfl⟩

/-- A struct with a name and a schema passes `validate.Struct`. -/
theorem validateStruct_of_present (rt : ResourceType) (hn : rt.Name ≠ "")
    (hs : rt.Schema ≠ .nil) : validateStruct rt = none := by
  unfold validateStruct
  cases hsc : rt.Schema with
  | nil => exact absurd hsc hs
  | malformed e => simp [hn]
  | valid v => simp [hn]

/-- The body `{"name": name, "schema": v}` decodes to that name and that
schema, whatever `v` is. -/
theorem decodeResourceType_name_schema (name : String) (v : JSONValue) :
    decodeResourceType (.value (.object [("name", .string name), ("schema", v)])) =
      .ok ⟨0, name, .valid v⟩ := by
  have h1 : ∀ rt : ResourceType,
      decodeMember rt "name" (.string name) = ({ rt with Name := name }, none) :=
    fun _ => rfl
  have h2 : ∀ rt : ResourceType,
      decodeMember rt "schema" v = ({ rt with Schema := .valid v }, none) :=
    fun _ => rfl
  simp [decodeResourceType, decodeMembers, h1, h2]

/-- C4, as the code has it: `createResourceType` does not run the sanity check.
A registration request reaches the insert exactly when its body decodes to a
non-empty name and a schema that is present, and nothing more is asked of the
schema: for every non-empty name and every JSON value `v` the body
`{"name": name, "schema": v}` reaches the insert with the schema `v`. The
strictness requirement is enforced before the persistence of data:
`validateAndStoreResourceData` sends its insert only for a stored schema on
which `checkAdditionalProperties` is true. -/
theorem strictness_enforced_at_submission_only :
    (∀ (db : DB) (fi : Option String) (body : RequestBody) (name : String)
        (schema : RawMessage),
      Statement.insertResourceType name schema ∈ (createResourceType db fi body).issued ↔
      ∃ rt, decodeResourceType body = .ok rt ∧ rt.Name = name ∧ rt.Schema = schema ∧
        name ≠ "" ∧ schema ≠ .nil) ∧
    (∀ (db : DB) (fi : Option String) (name : String) (v : JSONValue), name ≠ "" →
      (createResourceType db fi
        (.value (.object [("name", .string name), ("schema", v)]))).issued =
        [.insertResourceType name (.valid v)]) ∧
    (∀ (lib : SchemaLibrary) (db : DB) (sf fi : Option String) (name : String)
        (body : RequestBody) (tid : Int) (d : RawMessage),
      Statement.insertResourceData tid d ∈
        (validateAndStoreResourceData lib db sf fi name body).issued →
      ∃ schema, selectResourceType db sf name = .ok (tid, schema) ∧
        checkAdditionalProperties schema = true) := by
  have hissued : ∀ (db : DB) (fi : Option String) (body : RequestBody) (rt : ResourceType),
      decodeResourceType body = .ok rt → validateStruct rt = none →
      (createResourceType db fi body).issued = [.insertResourceType rt.Name rt.Schema] := by
    intro db fi body rt hd hv
    rw [create_insert db fi body rt hd hv]
    rcases hi : insertResourceType db fi rt.Name rt.Schema with ⟨res, db1⟩
    cases res <;> rfl
  refine ⟨?_, ?_, ?_⟩
  · intro db fi body name schema
    constructor
    · intro hmem
      cases hd : decodeResourceType body with
      | error err => rw [create_decode_error db fi body err hd] at hmem; simp at hmem
      | ok rt =>
        cases hv : validateStruct rt with
        | some err => rw [create_validation_error db fi body rt err hd hv] at hmem; simp at hmem
        | none =>
          rw [hissued db fi body rt hd hv] at hmem
          simp at hmem
          obtain ⟨h1, h2⟩ := hmem
          have hrt := validateStruct_none rt hv
          subst h1 h2
          exact ⟨rt, rfl, rfl, rfl, hrt.1, hrt.2⟩
    · rintro ⟨rt, hd, h1, h2, hn, hs⟩
      subst h1 h2
      rw [hissued db fi body rt hd (validateStruct_of_present rt hn hs)]
      exact List.mem_singleton.2 rfl
  · intro db fi name v hn
    exact hissued db fi _ ⟨0, name, .valid v⟩ (decodeResourceType_name_schema name v)
      (validateStruct_of_present _ hn (by simp))
  · intro lib db sf fi name body tid d hmem
    cases hs : selectResourceType db sf name with
    | error e =>
      cases e with
      | ErrNoRows => rw [submit_not_found lib db sf fi name body hs] at hmem; simp at hmem
      | other text => rw [submit_select_fault lib db sf fi name body text hs] at hmem; simp at hmem
    | ok p =>
      obtain ⟨tid0, schema⟩ := p
      cases body with
      | malformed err =>
        rw [submit_malformed lib db sf fi name err tid0 schema hs] at hmem; simp at hmem
      | value v =>
        cases hv : validateJSONAgainstSchema lib schema (.valid v) with
        | false => rw [submit_invalid lib db sf fi name v tid0 schema hs hv] at hmem; simp at hmem
        | true =>
          rw [submit_valid lib db sf fi name v tid0 schema hs hv] at hmem
          rcases hi : insertResourceData db fi tid0 (.valid v) with ⟨res, db1⟩
          rw [hi] at hmem
          have hc := ((validateJSONAgainstSchema_eq_true_iff lib schema _).1 hv).1
          cases res with
          | error e =>
            simp at hmem
            exact ⟨schema, by rw [hmem.1], hc⟩
          | ok id =>
            simp at hmem
            exact ⟨schema, by rw [hmem.1], hc⟩

/-- An instance of C4 as amended: the registration of the non-strict
`looseSchema` reaches the insert, and the submission to `strict` is inserted
under a schema that passes the sanity check. -/
theorem strictness_enforced_at_submission_only_witness :
    (createResourceType DB.init none looseRegistration).issued =
      [.insertResourceType "loose" looseSchema] ∧
    (∃ schema, selectResourceType sampleDB none "strict" = .ok (1, schema) ∧
      checkAdditionalProperties schema = true) :=
  ⟨strictness_enforced_at_submission_only.2.1 DB.init none "loose"
      (.object [("required", .array [.string "x"]), ("properties", .object [("x", .object [])])])
      (by decide),
    strictness_enforced_at_submission_only.2.2 fragmentLibrary sampleDB none none "strict"
      (.value goodData) 1 (.valid goodData) (List.mem_cons_of_mem _ (List.mem_singleton.2 rfl))⟩

/-- C4 fails as stated: the registration of `looseSchema`, whose root has no
`additionalProperties`, reaches the insert, is stored and answered with
`201 Created`. -/
theorem createResourceType_stores_nonstrict_schema :
    checkAdditionalProperties looseSchema = false ∧
    (createResourceType DB.init none looseRegistration).issued =
      [.insertResourceType "loose" looseSchema] ∧
    (createResourceType DB.init none looseRegistration).db.resource_types =
      [⟨1, "loose", looseSchema⟩] ∧
    (createResourceType DB.init none looseRegistration).response.status = StatusCreated :=
  ⟨rfl, rfl, rfl, rfl⟩


/-- C6 fails on the code: after the successful submission of `{"x": 5}` for
the type `strict` (id 1) the row stored is `(1, 1, {"x": 5})`, yet the struct
written to the caller has `resource_type_id` 0 and a nil `data`, since only
`resourceData.ID` is ever assigned. -/
theorem validateAndStoreResourceData_response_lacks_type_and_data :
    selectResourceType sampleDB none "strict" = .ok (1, strictSchema) ∧
    (validateAndStoreResourceData fragmentLibrary sampleDB none none "strict"
      (.value goodData)).db.resource_data = [⟨1, 1, .valid goodData⟩] ∧
    (validateAndStoreResourceData fragmentLibrary sampleDB none none "strict"
      (.value goodData)).response = ⟨StatusCreated, .resourceData ⟨1, 0, .nil⟩⟩ :=
  ⟨rfl, rfl, rfl⟩

/-- Every `201 Created` response of `validateAndStoreResourceData` carries the
id given by the sequence, the type id 0 and a nil document. -/
theorem submit_created_response (lib : SchemaLibrary) (db : DB) (sf fi : Option String)
    (name : String) (body : RequestBody)
    (h : (validateAndStoreResourceData lib db sf fi name body).response.status =
      StatusCreated) :
    (validateAndStoreResourceData lib db sf fi name body).response.body =
      .resourceData ⟨db.resource_data_id_seq, 0, .nil⟩ := by
  cases hs : selectResourceType db sf name with
  | error e =>
    cases e with
    | ErrNoRows =>
      rw [submit_not_found lib db sf fi name body hs] at h
      simp [httpError, StatusNotFound, StatusCreated] at h
    | other text =>
      rw [submit_select_fault lib db sf fi name body text hs] at h
      simp [httpError, StatusInternalServerError, StatusCreated] at h
  | ok p =>
    obtain ⟨tid0, schema⟩ := p
    cases body with
    | malformed err =>
      rw [submit_malformed lib db sf fi name err tid0 schema hs] at h
      simp [httpError, StatusBadRequest, StatusCreated] at h
    | value v =>
      cases hv : validateJSONAgainstSchema lib schema (.valid v) with
      | false =>
        rw [submit_invalid lib db sf fi name v tid0 schema hs hv] at h
        simp [httpError, StatusBadRequest, StatusCreated] at h
      | true =>
        rw [submit_valid lib db sf fi name v tid0 schema hs hv] at h ⊢
        rcases hi : insertResourceData db fi tid0 (.valid v) with ⟨res, db1⟩
        rw [hi] at h
        cases res with
        | error e => simp [httpError, StatusInternalServerError, StatusCreated] at h
        | ok id =>
          simp only
          rw [(insertResourceData_ok_db db fi tid0 _ id db1 hi).1]

/-- Decoding one member leaves in `Schema` either nothing or valid JSON. -/
theorem decodeMember_schema (rt : ResourceType) (key : String) (v : JSONValue)
    (h : rt.Schema = .nil ∨ ∃ w, rt.Schema = .valid w) :
    (decodeMember rt key v).1.Schema = .nil ∨ ∃ w, (decodeMember rt key v).1.Schema = .valid w := by
  unfold decodeMember
  split_ifs
  · split
    · exact h
    · split
      · split_ifs
        · exact h
        · exact h
      · exact h
    · exact h
  · split <;> exact h
  · exact Or.inr ⟨v, rfl⟩
  · exact h

/-- Decoding the members of an object leaves in `Schema` either nothing or
valid JSON. -/
theorem decodeMembers_schema (members : List (String × JSONValue)) :
    ∀ rt : ResourceType, (rt.Schema = .nil ∨ ∃ w, rt.Schema = .valid w) →
      ((decodeMembers rt members).1.Schema = .nil ∨
        ∃ w, (decodeMembers rt members).1.Schema = .valid w) := by
  induction members with
  | nil => intro rt h; exact h
  | cons kv rest ih =>
    intro rt h
    obtain ⟨key, v⟩ := kv
    have h1 := decodeMember_schema rt key v h
    unfold decodeMembers
    rcases hm : decodeMember rt key v with ⟨rt1, e⟩
    rw [hm] at h1
    cases e with
    | some err => exact h1
    | none => exact ih rt1 h1

/-- The struct decoded from a request body has in `Schema` either nothing or
valid JSON. -/
theorem decodeResourceType_schema (body : RequestBody) (rt : ResourceType)
    (h : decodeResourceType body = .ok rt) :
    rt.Schema = .nil ∨ ∃ w, rt.Schema = .valid w := by
  unfold decodeResourceType at h
  split at h
  · cases h
  · injection h with h
    subst h
    exact Or.inl rfl
  · rename_i members
    have hs := decodeMembers_schema members ⟨0, "", .nil⟩ (Or.inl rfl)
    rcases hm : decodeMembers ⟨0, "", .nil⟩ members with ⟨rt1, e⟩
    rw [hm] at h hs
    cases e with
    | some err => cases h
    | none =>
      injection h with h
      subst h
      exact hs
  · cases h

/-- C7, as the code has it: a registration under a name that the table already
holds is answered with `500 Internal Server Error` and the message
`Failed to insert resource type: ` followed by the text of the storage error,
which is the status of every other storage fault and not `409 Conflict`; it is
not ignored: the response is not `201 Created` and the database is unchanged.
When no earlier check of the insert fails, the text is the duplicate-key error
of the unique constraint on `name`. -/
theorem createResourceType_duplicate_name_is_internal (db : DB) (fi : Option String)
    (body : RequestBody) (rt : ResourceType)
    (hdec : decodeResourceType body = .ok rt) (hval : validateStruct rt = none)
    (hdup : db.resource_types.any (fun row => row.Name == rt.Name) = true) :
    (createResourceType db fi body).response.status = StatusInternalServerError ∧
    (createResourceType db fi body).response.status ≠ StatusConflict ∧
    (createResourceType db fi body).response.status ≠ StatusCreated ∧
    (∀ (db2 : DB) (text : String),
      (createResourceType db2 (some text) body).response.status =
        (createResourceType db fi body).response.status) ∧
    (∃ text, (createResourceType db fi body).response.body =
      .text ("Failed to insert resource type: " ++ text ++ "\n")) ∧
    (createResourceType db fi body).db = db ∧
    (fi = none → rt.Name.length ≤ 255 → db.resource_types_id_seq ≤ 2147483647 →
      db.resource_types.any (fun row => row.ID == db.resource_types_id_seq) = false →
      (createResourceType db fi body).response =
        httpError ("Failed to insert resource type: " ++
          "pq: duplicate key value violates unique constraint \"resource_types_name_key\"")
          StatusInternalServerError) := by
  obtain ⟨text, hi⟩ := insertResourceType_duplicate db fi rt.Name rt.Schema hdup
  have hrun : createResourceType db fi body =
      ⟨httpError ("Failed to insert resource type: " ++ text) StatusInternalServerError, db,
        [.insertResourceType rt.Name rt.Schema]⟩ := by
    rw [create_insert db fi body rt hdec hval, hi]
    rfl
  refine ⟨by rw [hrun]; rfl,
    by rw [hrun]; simp [httpError, StatusInternalServerError, StatusConflict],
    by rw [hrun]; simp [httpError, StatusInternalServerError, StatusCreated], ?_,
    ⟨text, by rw [hrun]; rfl⟩, by rw [hrun], ?_⟩
  · intro db2 text2
    rw [hrun, create_insert db2 (some text2) body rt hdec hval]
    rfl
  · intro hfi hlen hseq hpk
    subst hfi
    rw [create_insert db none body rt hdec hval]
    have hschema : ∃ v, rt.Schema = .valid v := by
      cases hsc : rt.Schema with
      | valid v => exact ⟨v, rfl⟩
      | nil => exact absurd hsc (validateStruct_none rt hval).2
      | malformed e =>
        rcases decodeResourceType_schema body rt hdec with h | ⟨w, h⟩ <;> rw [hsc] at h <;>
          cases h
    obtain ⟨v, hv⟩ := hschema
    simp [insertResourceType, hv, hdup, hpk, not_lt.2 hlen, not_lt.2 hseq]
    rfl


/-- An instance of C7 as amended: the second registration of `strict`. -/
theorem createResourceType_duplicate_name_is_internal_witness :
    (createResourceType sampleDB none strictRegistration).response.status =
      StatusInternalServerError ∧
    (createResourceType sampleDB none strictRegistration).db = sampleDB ∧
    (createResourceType sampleDB none strictRegistration).response =
      httpError ("Failed to insert resource type: " ++
        "pq: duplicate key value violates unique constraint \"resource_types_name_key\"")
        StatusInternalServerError :=
  have h := createResourceType_duplicate_name_is_internal sampleDB none strictRegistration
    ⟨0, "strict", .valid (.object [("additionalProperties", .bool false)])⟩ rfl rfl rfl
  ⟨h.1, h.2.2.2.2.2.1, h.2.2.2.2.2.2 rfl (by decide) (by decide) rfl⟩

/-- C7 fails as stated: the second registration of the name `strict` gets
status 500, the status that a registration hit by a connection fault gets, and
not 409. -/
theorem createResourceType_duplicate_name_not_conflict :
    sampleDB.resource_types.any (fun row => row.Name == "strict") = true ∧
    (createResourceType sampleDB none strictRegistration).response.status = 500 ∧
    (createResourceType sampleDB none strictRegistration).response.status ≠ StatusConflict ∧
    (createResourceType sampleDB none strictRegistration).response.status =
      (createResourceType DB.init (some "dial tcp 127.0.0.1:5432: connect: connection refused")
        strictRegistration).response.status :=
  ⟨rfl, rfl, by decide, rfl⟩

/-! ## What the caller is told on a failure -/

/-- C8, as the code has it: on a storage fault the status is always
`500 Internal Server Error`, and the message is a fixed text for the site of
the fault (`Failed to insert resource type: `, `Database error: `,
`Failed to insert resource data: `) followed by the text of the storage error:
two runs that differ only in that text get the same status and messages that
differ only in that text. -/
theorem storage_fault_message_carries_error_text (lib : SchemaLibrary) (db : DB)
    (text : String) :
    (∀ (body : RequestBody) (rt : ResourceType), decodeResourceType body = .ok rt →
      validateStruct rt = none →
      (createResourceType db (some text) body).response =
        httpError ("Failed to insert resource type: " ++ text) StatusInternalServerError) ∧
    (∀ (fi : Option String) (name : String) (body : RequestBody),
      (validateAndStoreResourceData lib db (some text) fi name body).response =
        httpError ("Database error: " ++ text) StatusInternalServerError) ∧
    (∀ (name : String) (v : JSONValue) (tid : Int) (schema : RawMessage),
      selectResourceType db none name = .ok (tid, schema) →
      validateJSONAgainstSchema lib schema (.valid v) = true →
      (validateAndStoreResourceData lib db none (some text) name (.value v)).response =
        httpError ("Failed to insert resource data: " ++ text) StatusInternalServerError) := by
  refine ⟨?_, ?_, ?_⟩
  · intro body rt hdec hval
    rw [create_insert db (some text) body rt hdec hval]
    rfl
  · intro fi name body
    rw [submit_select_fault lib db (some text) fi name body text (select_of_fault db name text)]
  · intro name v tid schema hs hv
    rw [submit_valid lib db none (some text) name v tid schema hs hv]
    rfl

/-- An instance of C8 as amended, one for each site of a storage fault. -/
theorem storage_fault_message_carries_error_text_witness :
    (createResourceType sampleDB (some "EOF") looseRegistration).response =
      httpError ("Failed to insert resource type: " ++ "EOF") StatusInternalServerError ∧
    (validateAndStoreResourceData fragmentLibrary sampleDB (some "EOF") none "strict"
      (.value goodData)).response =
      httpError ("Database error: " ++ "EOF") StatusInternalServerError ∧
    (validateAndStoreResourceData fragmentLibrary sampleDB none (some "EOF") "strict"
      (.value goodData)).response =
      httpError ("Failed to insert resource data: " ++ "EOF") StatusInternalServerError :=
  have h := storage_fault_message_carries_error_text fragmentLibrary sampleDB "EOF"
  ⟨h.1 looseRegistration ⟨0, "loose", looseSchema⟩ rfl rfl,
    h.2.1 none "strict" (.value goodData),
    h.2.2 "strict" goodData 1 strictSchema rfl rfl⟩

/-- C8 fails as stated: two registrations that differ only in the text of the
storage error get different responses, each one spelling that text out. -/
theorem storage_fault_text_reaches_caller :
    (createResourceType sampleDB (some "dial tcp 10.1.2.3:5432: connect: connection refused")
      looseRegistration).response.body =
      .text ("Failed to insert resource type: " ++
        "dial tcp 10.1.2.3:5432: connect: connection refused\n") ∧
    (createResourceType sampleDB (some "pq: password authentication failed for user \"postgres\"")
      looseRegistration).response.body =
      .text ("Failed to insert resource type: " ++
        "pq: password authentication failed for user \"postgres\"\n") ∧
    (createResourceType sampleDB (some "dial tcp 10.1.2.3:5432: connect: connection refused")
      looseRegistration).response ≠
    (createResourceType sampleDB (some "pq: password authentication failed for user \"postgres\"")
      looseRegistration).response := by
  refine ⟨rfl, rfl, ?_⟩
  intro h
  have hb := congrArg Response.body h
  have h1 : (createResourceType sampleDB
      (some "dial tcp 10.1.2.3:5432: connect: connection refused")
      looseRegistration).response.body =
      .text ("Failed to insert resource type: " ++
        "dial tcp 10.1.2.3:5432: connect: connection refused\n") := rfl
  have h2 : (createResourceType sampleDB
      (some "pq: password authentication failed for user \"postgres\"")
      looseRegistration).response.body =
      .text ("Failed to insert resource type: " ++
        "pq: password authentication failed for user \"postgres\"\n") := rfl
  rw [h1, h2] at hb
  injection hb with hb
  revert hb
  decide

/-- C9, as the code has it: once the type is found and the body parsed, a
non-strict stored schema, data that violate a strict schema, a schema that
does not load and a validator error all get one and the same response,
`400 Bad Request` with the message
`Validation failed: data does not conform to schema`; a storage fault gets
status 500, so it is told apart from these. -/
theorem validation_failures_share_one_response (lib : SchemaLibrary) (db : DB)
    (fi : Option String) (name : String) (v : JSONValue) (tid : Int) (schema : RawMessage)
    (hs : selectResourceType db none name = .ok (tid, schema)) :
    (checkAdditionalProperties schema = false →
      (validateAndStoreResourceData lib db none fi name (.value v)).response =
        httpError "Validation failed: data does not conform to schema" StatusBadRequest) ∧
    (∀ rs, unmarshalSchema lib schema = .ok rs → (lib.ValidateBytes rs (.valid v)).1 ≠ [] →
      (validateAndStoreResourceData lib db none fi name (.value v)).response =
        httpError "Validation failed: data does not conform to schema" StatusBadRequest) ∧
    (∀ rs, unmarshalSchema lib schema = .ok rs → (lib.ValidateBytes rs (.valid v)).2 ≠ none →
      (validateAndStoreResourceData lib db none fi name (.value v)).response =
        httpError "Validation failed: data does not conform to schema" StatusBadRequest) ∧
    (∀ err, unmarshalSchema lib schema = .error err →
      (validateAndStoreResourceData lib db none fi name (.value v)).response =
        httpError "Validation failed: data does not conform to schema" StatusBadRequest) ∧
    (∀ text,
      (validateAndStoreResourceData lib db (some text) fi name (.value v)).response.status =
        StatusInternalServerError) ∧
    (∀ text, validateJSONAgainstSchema lib schema (.valid v) = true →
      (validateAndStoreResourceData lib db none (some text) name (.value v)).response.status =
        StatusInternalServerError) ∧
    StatusInternalServerError ≠ StatusBadRequest := by
  have key : validateJSONAgainstSchema lib schema (.valid v) = false →
      (validateAndStoreResourceData lib db none fi name (.value v)).response =
        httpError "Validation failed: data does not conform to schema" StatusBadRequest := by
    intro hv
    rw [submit_invalid lib db none fi name v tid schema hs hv]
  have notTrue : ¬ validateJSONAgainstSchema lib schema (.valid v) = true →
      validateJSONAgainstSchema lib schema (.valid v) = false := by
    intro h
    cases hv : validateJSONAgainstSchema lib schema (.valid v) with
    | false => rfl
    | true => exact absurd hv h
  refine ⟨fun h => key (validate_false_of_not_strict lib _ _ h), ?_, ?_, ?_, ?_, ?_, by decide⟩
  · intro rs hrs hne
    apply key
    apply notTrue
    intro hv
    obtain ⟨_, rs1, h1, _, h3⟩ := (validateJSONAgainstSchema_eq_true_iff lib schema _).1 hv
    rw [hrs] at h1
    injection h1 with h1
    subst h1
    exact hne h3
  · intro rs hrs hne
    apply key
    apply notTrue
    intro hv
    obtain ⟨_, rs1, h1, h2, _⟩ := (validateJSONAgainstSchema_eq_true_iff lib schema _).1 hv
    rw [hrs] at h1
    injection h1 with h1
    subst h1
    exact hne h2
  · intro err herr
    apply key
    apply notTrue
    intro hv
    obtain ⟨_, rs1, h1, _, _⟩ := (validateJSONAgainstSchema_eq_true_iff lib schema _).1 hv
    rw [herr] at h1
    cases h1
  · intro text
    rw [submit_select_fault lib db (some text) fi name _ text (select_of_fault db name text)]
    rfl
  · intro text hv
    rw [submit_valid lib db none (some text) name v tid schema hs hv]
    rfl

/-- An instance of C9 as amended: the non-strict schema of `loose` and the
violation of the schema of `strict` by `{"y": 1}`. -/
theorem validation_failures_share_one_response_witness :
    (validateAndStoreResourceData fragmentLibrary sampleDB none none "loose"
      (.value goodData)).response =
      httpError "Validation failed: data does not conform to schema" StatusBadRequest ∧
    (validateAndStoreResourceData fragmentLibrary sampleDB none none "strict"
      (.value badData)).response =
      httpError "Validation failed: data does not conform to schema" StatusBadRequest :=
  ⟨(validation_failures_share_one_response fragmentLibrary sampleDB none "loose" goodData 2
      looseSchema rfl).1 rfl,
    (validation_failures_share_one_response fragmentLibrary sampleDB none "strict" badData 1
      strictSchema rfl).2.1 ⟨["x"], ["x"], false⟩ rfl (by simp [fragmentLibrary, fragmentValidate, badData, mapIndex])⟩

/-- C9 fails as stated: the submission to `loose`, whose stored schema is not
strict, and the submission of `{"y": 1}` to `strict`, which violates a strict
schema, get the very same response. -/
theorem schema_fault_and_data_fault_same_response :
    checkAdditionalProperties looseSchema = false ∧
    checkAdditionalProperties strictSchema = true ∧
    (fragmentValidate ⟨["x"], ["x"], false⟩ (.valid badData)).1.length = 2 ∧
    (validateAndStoreResourceData fragmentLibrary sampleDB none none "loose"
      (.value goodData)).response =
    (validateAndStoreResourceData fragmentLibrary sampleDB none none "strict"
      (.value badData)).response :=
  ⟨rfl, rfl, rfl, rfl⟩

end DynamicResources
